import Mathlib

/-!
Shallow embedding of the order/payment core of the e-commerce backend
(`backend/routers/orders.py`, with its data model from `backend/models.py`
and request schemas from `backend/schemas.py`).

Modelling conventions:
* SQL `Float` money columns are modelled as `ℚ`; `Integer` columns as `Int`
  (ids as `Nat`); nullable columns as `Option`; timestamps as `Option Nat`
  (an abstract clock tick passed in as `now`).
* A table is a `List` of row structures; `id` / `order_id` are primary or
  unique keys, so the ORM's mutation of one fetched row is modelled as a
  map over the rows with the matching key.
* A FastAPI handler runs inside one SQLAlchemy session (`database.get_db`).
  An `HTTPException` raised before `db.commit()` aborts the request and the
  session is closed without committing, so the database keeps its pre-call
  state.  A handler is therefore a function from the committed state `DB`
  to (outcome, committed post-state); error outcomes raised before the
  commit return the input state.  `processItems` additionally records the
  dirty in-session product list at raise time, mirroring the ORM objects
  already mutated in the aborted session.
* The Razorpay SDK and `hmac`/`hashlib` are external libraries: the HMAC
  computation is a function parameter `hm : String → String → String`
  applied as `hm secret message`, and the gateway's response id is a
  parameter of `create_razorpay_order`.
-/

namespace ECom

/-- Order processing status (`models.OrderStatus`). -/
inductive OrderStatus where
  | pending
  | confirmed
  | processing
  | shipped
  | delivered
  | cancelled
  | refunded
  deriving DecidableEq

/-- Payment transaction status (`models.PaymentStatus`). -/
inductive PaymentStatus where
  | pending
  | processing
  | completed
  | failed
  | refunded
  deriving DecidableEq

/-- Payment methods (`models.PaymentMethod`). -/
inductive PaymentMethod where
  | razorpay
  | whatsapp
  | cod
  deriving DecidableEq

/-- Product row (`models.Product`), restricted to the columns the order flow
reads or writes. -/
structure Product where
  id : Nat
  name : String
  sku : Option String := none
  original_price : ℚ
  discounted_price : Option ℚ := none
  stock : Int
  is_active : Bool
  deriving DecidableEq

/-- Color-variant row (`product_color_variants` in the document backend);
carried in the state only to express that the order/payment flow never
touches variant stock. -/
structure ColorVariant where
  id : Nat
  product_id : Nat
  stock : Int
  is_active : Bool
  deriving DecidableEq

/-- One line of an incoming cart (`schemas.OrderItemCreate`). -/
structure OrderItemCreate where
  product_id : Nat
  quantity : Int
  selected_size : Option String := none
  selected_color : Option String := none
  deriving DecidableEq

/-- Order-creation request body (`schemas.OrderCreate`). -/
structure OrderCreate where
  customer_name : String
  customer_email : Option String := none
  customer_phone : String
  shipping_address : String
  shipping_city : Option String := none
  shipping_state : Option String := none
  shipping_pincode : Option String := none
  payment_method : PaymentMethod
  customer_notes : Option String := none
  items : List OrderItemCreate
  deriving DecidableEq

/-- WhatsApp order request body (`schemas.WhatsAppOrderCreate`). -/
structure WhatsAppOrderCreate where
  customer_name : String
  customer_phone : String
  shipping_address : String
  items : List OrderItemCreate
  deriving DecidableEq

/-- Order row (`models.Order`); `created_at`/`updated_at` and admin notes are
omitted as no modelled operation reads them. -/
structure Order where
  id : Nat
  user_id : Option Nat
  customer_name : String
  customer_email : Option String
  customer_phone : String
  shipping_address : String
  shipping_city : Option String
  shipping_state : Option String
  shipping_pincode : Option String
  total_amount : ℚ
  discount_amount : ℚ
  final_amount : ℚ
  status : OrderStatus
  payment_method : PaymentMethod
  customer_notes : Option String
  confirmed_at : Option Nat := none
  shipped_at : Option Nat := none
  delivered_at : Option Nat := none
  deriving DecidableEq

/-- Order line-item row (`models.OrderItem`). -/
structure OrderItem where
  order_id : Nat
  product_id : Nat
  product_name : String
  product_sku : Option String
  selected_size : Option String
  selected_color : Option String
  unit_price : ℚ
  quantity : Int
  total_price : ℚ
  deriving DecidableEq

/-- Payment row (`models.Payment`). -/
structure Payment where
  order_id : Nat
  payment_method : PaymentMethod
  payment_status : PaymentStatus
  razorpay_order_id : Option String := none
  razorpay_payment_id : Option String := none
  razorpay_signature : Option String := none
  amount : ℚ
  currency : String := "INR"
  failure_reason : Option String := none
  completed_at : Option Nat := none
  deriving DecidableEq

/-- Committed database state: the tables the order/payment flow touches,
plus the sequence backing `orders.id`. -/
structure DB where
  products : List Product
  color_variants : List ColorVariant
  orders : List Order
  order_items : List OrderItem
  payments : List Payment
  next_order_id : Nat
  deriving DecidableEq

/-- Errors raised by `create_order` (`HTTPException`s of orders.py lines
50-61): 404 product not found or inactive, 400 insufficient stock (the
detail string reports the available and requested quantities). -/
inductive OrderErr where
  | notFound (product_id : Nat)
  | insufficientStock (product_name : String) (available : Int) (requested : Int)
  deriving DecidableEq

/-- Unit price selection, orders.py line 64:
`product.discounted_price if product.discounted_price and product.discounted_price > 0
else product.original_price`.  A `None` or `0.0` discounted price is falsy in
Python, so the condition is exactly "present and strictly positive". -/
def unit_price (product : Product) : ℚ :=
  match product.discounted_price with
  | some d => if 0 < d then d else product.original_price
  | none => product.original_price

/-- The query of orders.py lines 45-48: first product row matching
`id == product_id` and `is_active == True`. -/
def findActive (products : List Product) (product_id : Nat) : Option Product :=
  products.find? (fun p => p.id == product_id && p.is_active)

/-- Stock deduction of orders.py line 86 (`product.stock -= item.quantity`),
applied to the row with the fetched primary key. -/
def decStock (products : List Product) (product_id : Nat) (qty : Int) : List Product :=
  products.map (fun p => if p.id == product_id then { p with stock := p.stock - qty } else p)

/-- In-session snapshot dict built at orders.py lines 74-83. -/
structure ItemSnap where
  product_id : Nat
  product_name : String
  product_sku : Option String
  selected_size : Option String
  selected_color : Option String
  unit_price : ℚ
  quantity : Int
  total_price : ℚ
  deriving DecidableEq

/-- State threaded through the validation loop of orders.py lines 39-86:
the (dirty) product rows plus the accumulators initialised at lines 39-41. -/
structure LoopState where
  products : List Product
  total_amount : ℚ
  discount_amount : ℚ
  order_items : List ItemSnap
  deriving DecidableEq

/-- Result of the validation loop: either the final loop state, or the
`HTTPException` raised mid-loop together with the dirty in-session product
rows at raise time (the decrements already applied to ORM objects, which
the aborted session will discard). -/
inductive ProcessResult where
  | ok (s : LoopState)
  | raised (e : OrderErr) (dirty : List Product)
  deriving DecidableEq

/-- The `for item in order_data.items` loop of orders.py lines 43-86. -/
def processItems : List OrderItemCreate → LoopState → ProcessResult
  | [], s => .ok s
  | item :: rest, s =>
    match findActive s.products item.product_id with
    | none => .raised (.notFound item.product_id) s.products
    | some product =>
      if product.stock < item.quantity then
        .raised (.insufficientStock product.name product.stock item.quantity) s.products
      else
        let up := unit_price product
        let item_total := up * (item.quantity : ℚ)
        let disc :=
          match product.discounted_price with
          | some d => if 0 < d then (product.original_price - d) * (item.quantity : ℚ) else 0
          | none => 0
        processItems rest
          { products := decStock s.products item.product_id item.quantity
            total_amount := s.total_amount + item_total
            discount_amount := s.discount_amount + disc
            order_items := s.order_items ++
              [{ product_id := product.id
                 product_name := product.name
                 product_sku := product.sku
                 selected_size := item.selected_size
                 selected_color := item.selected_color
                 unit_price := up
                 quantity := item.quantity
                 total_price := item_total }] }

/-- OrderItem row created from a loop snapshot (orders.py lines 112-117). -/
def mkOrderItem (order_id : Nat) (it : ItemSnap) : OrderItem :=
  { order_id := order_id
    product_id := it.product_id
    product_name := it.product_name
    product_sku := it.product_sku
    selected_size := it.selected_size
    selected_color := it.selected_color
    unit_price := it.unit_price
    quantity := it.quantity
    total_price := it.total_price }

/-- The Order row assembled at orders.py lines 89-106 from a completed
validation loop: status pending, `final_amount = total_amount` (line 89 sets
`final_amount` to the accumulated `total_amount`, nothing is added to it). -/
def newOrder (od : OrderCreate) (user_id : Option Nat) (db : DB) (s : LoopState) : Order :=
  { id := db.next_order_id
    user_id := user_id
    customer_name := od.customer_name
    customer_email := od.customer_email
    customer_phone := od.customer_phone
    shipping_address := od.shipping_address
    shipping_city := od.shipping_city
    shipping_state := od.shipping_state
    shipping_pincode := od.shipping_pincode
    total_amount := s.total_amount
    discount_amount := s.discount_amount
    final_amount := s.total_amount
    status := .pending
    payment_method := od.payment_method
    customer_notes := od.customer_notes }

/-- The pending Payment row created at orders.py lines 120-127, with
`amount = final_amount`. -/
def newPayment (od : OrderCreate) (db : DB) (s : LoopState) : Payment :=
  { order_id := db.next_order_id
    payment_method := od.payment_method
    payment_status := .pending
    amount := s.total_amount
    currency := "INR" }

/-- The committed state after a successful `create_order`: decremented
products, the new Order, its OrderItems and the pending Payment, committed
together at orders.py line 131. -/
def commitOrder (od : OrderCreate) (user_id : Option Nat) (db : DB) (s : LoopState) : DB :=
  { db with
      products := s.products
      orders := db.orders ++ [newOrder od user_id db s]
      order_items := db.order_items ++ s.order_items.map (mkOrderItem db.next_order_id)
      payments := db.payments ++ [newPayment od db s]
      next_order_id := db.next_order_id + 1 }

/-- Handler `create_order` (orders.py lines 28-140).  On an `HTTPException` from the
validation loop nothing was committed, so the committed state is the input
state (the session is closed without commit and its dirty decrements are
discarded); on success the assembled rows are committed as one transaction. -/
def create_order (od : OrderCreate) (user_id : Option Nat) (db : DB) :
    DB × Except OrderErr Order :=
  match processItems od.items { products := db.products, total_amount := 0, discount_amount := 0, order_items := [] } with
  | .raised e _ => (db, .error e)
  | .ok s => (commitOrder od user_id db s, .ok (newOrder od user_id db s))

/-- The `OrderCreate` assembled by `create_whatsapp_order` at orders.py
lines 310-316: payment method fixed to whatsapp, unspecified fields left at
their schema defaults. -/
def whatsAppToOrderCreate (wd : WhatsAppOrderCreate) : OrderCreate :=
  { customer_name := wd.customer_name
    customer_phone := wd.customer_phone
    shipping_address := wd.shipping_address
    payment_method := .whatsapp
    items := wd.items }

/-- Handler `create_whatsapp_order` (orders.py lines 300-354), restricted to its
database effects: it builds an `OrderCreate` and awaits `create_order` on it;
the remainder of the handler only formats the message URL from the result. -/
def create_whatsapp_order (wd : WhatsAppOrderCreate) (user_id : Option Nat) (db : DB) :
    DB × Except OrderErr Order :=
  create_order (whatsAppToOrderCreate wd) user_id db

/-- Request body of `schemas.RazorpayOrderCreate`. -/
structure RazorpayOrderCreate where
  order_id : Nat
  amount : ℚ
  deriving DecidableEq

/-- Outcome of `create_razorpay_order`: the three `HTTPException`s raised
before the gateway call, or `contacted` once the handler has passed the
amount check and called `razorpay_client.order.create`. -/
inductive RzOutcome where
  | notConfigured
  | orderNotFound
  | amountMismatch
  | contacted
  deriving DecidableEq

/-- Handler `create_razorpay_order` (orders.py lines 144-210).  `configured` is
whether `razorpay_client` was initialised; `gateway_order_id` is the id the
external gateway returns for the created order.  The handler rejects before
contacting the gateway unless the requested amount is within 0.01 of the
stored `final_amount` (line 171); afterwards it stores the gateway id on the
payment row and marks it processing (lines 190-197). -/
def create_razorpay_order (configured : Bool) (rd : RazorpayOrderCreate)
    (gateway_order_id : String) (db : DB) : RzOutcome × DB :=
  if !configured then (.notConfigured, db)
  else
    match db.orders.find? (fun o => o.id == rd.order_id) with
    | none => (.orderNotFound, db)
    | some order =>
      if |order.final_amount - rd.amount| > 1/100 then (.amountMismatch, db)
      else
        let payments :=
          match db.payments.find? (fun p => p.order_id == order.id) with
          | some _ =>
            db.payments.map (fun p =>
              if p.order_id == order.id then
                { p with razorpay_order_id := some gateway_order_id
                         payment_status := .processing }
              else p)
          | none => db.payments
        (.contacted, { db with payments := payments })

/-- Request body of `schemas.RazorpayPaymentVerify`. -/
structure RazorpayPaymentVerify where
  order_id : Nat
  razorpay_order_id : String
  razorpay_payment_id : String
  razorpay_signature : String
  deriving DecidableEq

/-- Outcome of `verify_razorpay_payment`: the `HTTPException`s of orders.py
lines 222-248 and 265-268, or success. -/
inductive VerifyOutcome where
  | notConfigured
  | orderNotFound
  | paymentNotFound
  | signatureInvalid
  | ok
  deriving DecidableEq

/-- Handler `verify_razorpay_payment` (orders.py lines 213-296).  `hm secret message`
stands for `hmac.new(secret, message, sha256).hexdigest()`; the signed
message is `razorpay_order_id ++ "|" ++ razorpay_payment_id` (line 255).  On
mismatch the payment is marked failed and committed before the 400 is raised
(lines 261-268); on match the payment is completed (gateway payment id,
signature, `completed_at`) and the order confirmed (lines 271-280). -/
def verify_razorpay_payment (hm : String → String → String) (secret : String)
    (configured : Bool) (pd : RazorpayPaymentVerify) (now : Nat) (db : DB) :
    VerifyOutcome × DB :=
  if !configured then (.notConfigured, db)
  else
    match db.orders.find? (fun o => o.id == pd.order_id) with
    | none => (.orderNotFound, db)
    | some order =>
      match db.payments.find? (fun p => p.order_id == order.id) with
      | none => (.paymentNotFound, db)
      | some _ =>
        let generated_signature := hm secret (pd.razorpay_order_id ++ "|" ++ pd.razorpay_payment_id)
        if generated_signature ≠ pd.razorpay_signature then
          (.signatureInvalid,
           { db with payments := db.payments.map (fun p =>
               if p.order_id == order.id then
                 { p with payment_status := .failed
                          failure_reason := some ("Invalid payment signature") }
               else p) })
        else
          (.ok,
           { db with
               payments := db.payments.map (fun p =>
                 if p.order_id == order.id then
                   { p with razorpay_payment_id := some pd.razorpay_payment_id
                            razorpay_signature := some pd.razorpay_signature
                            payment_status := .completed
                            completed_at := some now }
                 else p)
               orders := db.orders.map (fun o =>
                 if o.id == order.id then
                   { o with status := .confirmed, confirmed_at := some now }
                 else o) })

/-- Outcome of `update_order_status`. -/
inductive UpdOutcome where
  | orderNotFound
  | ok
  deriving DecidableEq

/-- The status assignment and timestamp `elif` chain of orders.py
lines 434-443. -/
def applyStatus (o : Order) (new_status : OrderStatus) (now : Nat) : Order :=
  let o := { o with status := new_status }
  if new_status = .confirmed ∧ o.confirmed_at = none then { o with confirmed_at := some now }
  else if new_status = .shipped ∧ o.shipped_at = none then { o with shipped_at := some now }
  else if new_status = .delivered ∧ o.delivered_at = none then { o with delivered_at := some now }
  else o

/-- Handler `update_order_status` (orders.py lines 416-448): the admin endpoint
fetches the order and assigns whatever status the request carries. -/
def update_order_status (order_id : Nat) (new_status : OrderStatus) (now : Nat)
    (db : DB) : UpdOutcome × DB :=
  match db.orders.find? (fun o => o.id == order_id) with
  | none => (.orderNotFound, db)
  | some order =>
    (.ok, { db with orders := db.orders.map (fun o =>
        if o.id == order.id then applyStatus o new_status now else o) })

/-- The stock effect of the admin product update
(`routers/products.py` lines 186-207, `update_product`): the `$set` writes
`product_data.stock` to the product document.  `schemas.ProductBase`
(schemas.py line 169) validates `stock: int = Field(default=0, ge=0)`. -/
def update_product_stock (product_id : Nat) (new_stock : Int) (db : DB) : DB :=
  { db with products := db.products.map (fun p =>
      if p.id == product_id then { p with stock := new_stock } else p) }

/-- One core operation, for sequencing: order placement, an admin stock
update, or a payment confirmation. -/
inductive Op where
  | placeOrder (od : OrderCreate) (user_id : Option Nat)
  | updateProductStock (product_id : Nat) (new_stock : Int)
  | verifyPayment (hm : String → String → String) (secret : String)
      (configured : Bool) (pd : RazorpayPaymentVerify) (now : Nat)

/-- State effect of one core operation. -/
def applyOp : Op → DB → DB
  | .placeOrder od user_id, db => (create_order od user_id db).1
  | .updateProductStock pid s, db => update_product_stock pid s db
  | .verifyPayment hm secret cfg pd now, db => (verify_razorpay_payment hm secret cfg pd now db).2

/-- Run a sequence of core operations. -/
def runOps : List Op → DB → DB
  | [], db => db
  | op :: rest, db => runOps rest (applyOp op db)

/-- Request-schema validation relevant to stock: `schemas.ProductBase`
requires `stock ≥ 0` (schemas.py line 169); the other operations carry no
stock field. -/
def opWF : Op → Bool
  | .updateProductStock _ s => 0 ≤ s
  | _ => true

/-- Total quantity a cart orders for one product id. -/
def qtySum (items : List OrderItemCreate) (product_id : Nat) : Int :=
  ((items.filter (fun it => it.product_id == product_id)).map (fun it => it.quantity)).sum

/-- Whether a cart mentions a product id. -/
def occursIn (items : List OrderItemCreate) (product_id : Nat) : Bool :=
  items.any (fun it => it.product_id == product_id)

/-- Every product row has non-negative stock. -/
def stocksNonneg (db : DB) : Prop :=
  ∀ p ∈ db.products, 0 ≤ p.stock

/-- Column `products.id` is the primary key: no two rows share an id. -/
def idsNodup (db : DB) : Prop :=
  (db.products.map Product.id).Nodup

/-- Modelled from the spec: the tiered `shippingCost(subtotal)` function the
spec describes (thresholds 700 and 1200, fees 50 and 30, free at or above
1200); no such function exists anywhere under the repository source, so this
definition follows the spec's words and is used only to state the claimed
relation between an order's persisted total and its subtotal. -/
def shippingCost_spec (subtotal : ℚ) : ℚ :=
  if subtotal < 700 then 50
  else if subtotal < 1200 then 30
  else 0

/-! ### Concrete fixtures used to instantiate the theorems -/

/-- A product with an applicable discount (original 100, discounted 80),
stock 5. -/
def productA : Product :=
  { id := 1, name := "Saree A", sku := some ("SKU-A"), original_price := 100,
    discounted_price := some 80, stock := 5, is_active := true }

/-- A product with no discount, stock 1. -/
def productB : Product :=
  { id := 2, name := "Kurta B", original_price := 50, stock := 1, is_active := true }

/-- A product priced 500 with no discount, stock 10. -/
def productC : Product :=
  { id := 3, name := "Dress C", original_price := 500, stock := 10, is_active := true }

/-- A catalog with the three sample products and empty order tables. -/
def dbW : DB :=
  { products := [productA, productB, productC], color_variants := [],
    orders := [], order_items := [], payments := [], next_order_id := 1 }

/-- A satisfiable one-line cart: two units of `productA`. -/
def odOk : OrderCreate :=
  { customer_name := "Asha", customer_phone := "9000000001",
    shipping_address := "12 Lane", payment_method := .cod,
    items := [{ product_id := 1, quantity := 2 }] }

/-- A cart whose second line exceeds `productB`'s stock after the first line
has already decremented `productA`. -/
def odFail : OrderCreate :=
  { customer_name := "Asha", customer_phone := "9000000001",
    shipping_address := "12 Lane", payment_method := .cod,
    items := [{ product_id := 1, quantity := 2 }, { product_id := 2, quantity := 100 }] }

/-- A one-line cart with subtotal 500 (one unit of `productC`). -/
def odPlain : OrderCreate :=
  { customer_name := "Ravi", customer_phone := "9000000002",
    shipping_address := "34 Road", payment_method := .razorpay,
    items := [{ product_id := 3, quantity := 1 }] }

/-- The Order row a successful `create_order odOk none dbW` returns:
subtotal 2 x 80 = 160, discount 2 x 20 = 40, `final_amount = total_amount`. -/
def ordOkResult : Order :=
  { id := 1, user_id := none, customer_name := "Asha", customer_email := none,
    customer_phone := "9000000001", shipping_address := "12 Lane",
    shipping_city := none, shipping_state := none, shipping_pincode := none,
    total_amount := 160, discount_amount := 40, final_amount := 160,
    status := .pending, payment_method := .cod, customer_notes := none }

/-- The loop state a successful validation of `odOk` against `dbW` ends in:
`productA`'s stock decremented to 3, subtotal 160, discount 40. -/
def sOkFix : LoopState :=
  { products := [{ productA with stock := 3 }, productB, productC]
    total_amount := 160
    discount_amount := 40
    order_items := [{ product_id := 1, product_name := "Saree A", product_sku := some ("SKU-A"),
                      selected_size := none, selected_color := none,
                      unit_price := 80, quantity := 2, total_price := 160 }] }

/-- A catalog holding only `productC`. -/
def dbPlain : DB :=
  { products := [productC], color_variants := [],
    orders := [], order_items := [], payments := [], next_order_id := 1 }

/-- The loop state a successful validation of `odPlain` against `dbPlain`
ends in: `productC`'s stock decremented to 9, subtotal 500, no discount. -/
def sPlainFix : LoopState :=
  { products := [{ productC with stock := 9 }]
    total_amount := 500
    discount_amount := 0
    order_items := [{ product_id := 3, product_name := "Dress C", product_sku := none,
                      selected_size := none, selected_color := none,
                      unit_price := 500, quantity := 1, total_price := 500 }] }

/-- A pending order awaiting payment. -/
def orderPending : Order :=
  { id := 1, user_id := none, customer_name := "Meena", customer_email := none,
    customer_phone := "9000000003", shipping_address := "56 St",
    shipping_city := none, shipping_state := none, shipping_pincode := none,
    total_amount := 100, discount_amount := 0, final_amount := 100,
    status := .pending, payment_method := .razorpay, customer_notes := none }

/-- The pending payment row of `orderPending`; its gateway correlation ids
are still unset. -/
def paymentPending : Payment :=
  { order_id := 1, payment_method := .razorpay, payment_status := .pending,
    amount := 100 }

/-- A state holding `orderPending` and `paymentPending`. -/
def dbPay : DB :=
  { products := [], color_variants := [], orders := [orderPending],
    order_items := [], payments := [paymentPending], next_order_id := 2 }

/-- A state holding one order in the terminal `delivered` status. -/
def dbDelivered : DB :=
  { products := [], color_variants := [],
    orders := [{ orderPending with status := .delivered }],
    order_items := [], payments := [], next_order_id := 2 }

/-- A concrete stand-in for the HMAC digest function, used to instantiate
theorems that hold for every digest function. -/
def hmConcat : String → String → String := fun secret msg => secret ++ ":" ++ msg

/-- A verification request whose signature matches `hmConcat`'s digest under
secret "k". -/
def pdGood : RazorpayPaymentVerify :=
  { order_id := 1, razorpay_order_id := "ro1", razorpay_payment_id := "rp1",
    razorpay_signature := "k:ro1|rp1" }

/-- A verification request with a non-matching signature. -/
def pdBad : RazorpayPaymentVerify :=
  { order_id := 1, razorpay_order_id := "ro1", razorpay_payment_id := "rp1",
    razorpay_signature := "forged" }

/-! ### Helper lemmas about the validation loop -/

lemma qtySum_nil (pid : Nat) : qtySum [] pid = 0 := rfl

lemma qtySum_cons (it : OrderItemCreate) (rest : List OrderItemCreate) (pid : Nat) :
    qtySum (it :: rest) pid =
      (if it.product_id == pid then it.quantity else 0) + qtySum rest pid := by
  by_cases h : it.product_id == pid <;>
    simp [qtySum, List.filter_cons, h]

lemma occursIn_false_qtySum {items : List OrderItemCreate} {pid : Nat}
    (h : occursIn items pid = false) : qtySum items pid = 0 := by
  induction items with
  | nil => rfl
  | cons it rest ih =>
    rw [occursIn, List.any_cons, Bool.or_eq_false_iff] at h
    rw [qtySum_cons, h.1, if_neg (by simp), ih h.2, zero_add]

lemma findActive_mem {ps : List Product} {pid : Nat} {p : Product}
    (h : findActive ps pid = some p) : p ∈ ps :=
  List.mem_of_find?_eq_some h

lemma findActive_id {ps : List Product} {pid : Nat} {p : Product}
    (h : findActive ps pid = some p) : p.id = pid := by
  have := List.find?_some h
  rw [Bool.and_eq_true] at this
  exact eq_of_beq this.1

lemma findActive_active {ps : List Product} {pid : Nat} {p : Product}
    (h : findActive ps pid = some p) : p.is_active = true := by
  have := List.find?_some h
  rw [Bool.and_eq_true] at this
  exact this.2

lemma decStock_map_id (ps : List Product) (pid : Nat) (qty : Int) :
    (decStock ps pid qty).map Product.id = ps.map Product.id := by
  rw [decStock, List.map_map]
  apply List.map_congr_left
  intro p _
  by_cases h : p.id = pid <;> simp [Function.comp, h]

/-- Success of the validation loop rewrites each product row by subtracting
exactly the total quantity the cart orders for its id. -/
lemma processItems_ok_products :
    ∀ (items : List OrderItemCreate) (s s' : LoopState),
      processItems items s = .ok s' →
      s'.products = s.products.map (fun p => { p with stock := p.stock - qtySum items p.id }) := by
  intro items
  induction items with
  | nil =>
    intro s s' h
    rw [processItems] at h
    cases h
    have h2 : s.products.map (fun p => ({ p with stock := p.stock - qtySum [] p.id } : Product))
        = s.products.map id := by
      apply List.map_congr_left
      intro p _
      rw [qtySum_nil, sub_zero]
      rfl
    rw [h2, List.map_id]
  | cons it rest ih =>
    intro s s' h
    cases hf : findActive s.products it.product_id with
    | none => simp [processItems, hf] at h
    | some product =>
      by_cases hs : product.stock < it.quantity
      · simp [processItems, hf, hs] at h
      · simp only [processItems, hf, if_neg hs] at h
        rw [ih _ _ h]
        show (decStock s.products it.product_id it.quantity).map _ = _
        rw [decStock, List.map_map]
        apply List.map_congr_left
        intro p _
        show ({ (if p.id == it.product_id then { p with stock := p.stock - it.quantity } else p) with
            stock := (if p.id == it.product_id then { p with stock := p.stock - it.quantity } else p).stock
              - qtySum rest (if p.id == it.product_id then { p with stock := p.stock - it.quantity } else p).id } : Product)
          = { p with stock := p.stock - qtySum (it :: rest) p.id }
        by_cases hid : p.id = it.product_id
        · have hb : (p.id == it.product_id) = true := beq_iff_eq.mpr hid
          have hb' : (it.product_id == p.id) = true := beq_iff_eq.mpr hid.symm
          rw [if_pos hb, qtySum_cons, hb', if_pos rfl]
          show ({ p with stock := p.stock - it.quantity - qtySum rest p.id } : Product) = _
          congr 1
          omega
        · have hb : (p.id == it.product_id) = false := beq_eq_false_iff_ne.mpr hid
          have hb' : (it.product_id == p.id) = false :=
            beq_eq_false_iff_ne.mpr (fun e => hid e.symm)
          rw [if_neg (by simp [hb]), qtySum_cons, hb', if_neg (by simp), zero_add]

/-- Success of the validation loop appends the new line snapshots and adds
exactly their `total_price`s to the running total. -/
lemma processItems_ok_items :
    ∀ (items : List OrderItemCreate) (s s' : LoopState),
      processItems items s = .ok s' →
      ∃ new, s'.order_items = s.order_items ++ new ∧
        s'.total_amount = s.total_amount + (new.map ItemSnap.total_price).sum := by
  intro items
  induction items with
  | nil =>
    intro s s' h
    rw [processItems] at h
    cases h
    exact ⟨[], by simp, by simp⟩
  | cons it rest ih =>
    intro s s' h
    cases hf : findActive s.products it.product_id with
    | none => simp [processItems, hf] at h
    | some product =>
      by_cases hs : product.stock < it.quantity
      · simp [processItems, hf, hs] at h
      · simp only [processItems, hf, if_neg hs] at h
        obtain ⟨new', h1, h2⟩ := ih _ _ h
        refine ⟨{ product_id := product.id
                  product_name := product.name
                  product_sku := product.sku
                  selected_size := it.selected_size
                  selected_color := it.selected_color
                  unit_price := unit_price product
                  quantity := it.quantity
                  total_price := unit_price product * (it.quantity : ℚ) } :: new', ?_, ?_⟩
        · rw [h1]
          simp
        · rw [h2]
          simp only [List.map_cons, List.sum_cons]
          ring

/-- A row of a decremented product list comes from a source row with the
same id and activity flag. -/
lemma decStock_mem_src {ps : List Product} {pid : Nat} {qty : Int} {p' : Product}
    (h : p' ∈ decStock ps pid qty) :
    ∃ q ∈ ps, p'.id = q.id ∧ p'.is_active = q.is_active := by
  rw [decStock] at h
  obtain ⟨q, hq, hEq⟩ := List.mem_map.mp h
  refine ⟨q, hq, ?_, ?_⟩ <;> rw [← hEq] <;>
    by_cases hb : (q.id == pid) = true <;> simp [hb]

/-- Each cart line a successful loop run processed referenced a product row
that existed and was active at resolution time. -/
lemma processItems_ok_active :
    ∀ (items : List OrderItemCreate) (s s' : LoopState),
      processItems items s = .ok s' →
      ∀ it ∈ items, ∃ p ∈ s.products, p.id = it.product_id ∧ p.is_active = true := by
  intro items
  induction items with
  | nil =>
    intro s s' _ it hit
    simp at hit
  | cons it rest ih =>
    intro s s' h it' hit'
    cases hf : findActive s.products it.product_id with
    | none => simp [processItems, hf] at h
    | some product =>
      by_cases hs : product.stock < it.quantity
      · simp [processItems, hf, hs] at h
      · simp only [processItems, hf, if_neg hs] at h
        rcases List.mem_cons.mp hit' with rfl | hmem
        · exact ⟨product, findActive_mem hf, findActive_id hf, findActive_active hf⟩
        · obtain ⟨p₁, hp₁mem, hp₁id, hp₁act⟩ := ih _ _ h it' hmem
          obtain ⟨q, hq, hid2, hact2⟩ := decStock_mem_src hp₁mem
          exact ⟨q, hq, hid2 ▸ hp₁id, hact2 ▸ hp₁act⟩

/-- With unique product ids, a successful loop run had, for every product
row mentioned by the cart, at least its total ordered quantity in stock:
every per-line availability check passed against the already-decremented
running stock. -/
lemma processItems_ok_le :
    ∀ (items : List OrderItemCreate) (s s' : LoopState),
      (s.products.map Product.id).Nodup →
      processItems items s = .ok s' →
      ∀ p ∈ s.products, occursIn items p.id = true → qtySum items p.id ≤ p.stock := by
  intro items
  induction items with
  | nil =>
    intro s s' _ _ p _ hocc
    simp [occursIn] at hocc
  | cons it rest ih =>
    intro s s' hnd h p hp hocc
    cases hf : findActive s.products it.product_id with
    | none => simp [processItems, hf] at h
    | some product =>
      by_cases hs : product.stock < it.quantity
      · simp [processItems, hf, hs] at h
      · simp only [processItems, hf, if_neg hs] at h
        have hnd₁ : ((decStock s.products it.product_id it.quantity).map Product.id).Nodup := by
          rw [decStock_map_id]; exact hnd
        rw [qtySum_cons]
        by_cases hid : p.id = it.product_id
        · have hpprod : p = product :=
            List.inj_on_of_nodup_map hnd hp (findActive_mem hf)
              (by rw [hid, findActive_id hf])
          have hb' : (it.product_id == p.id) = true := beq_iff_eq.mpr hid.symm
          rw [hb', if_pos rfl]
          have hb2 : (product.id == it.product_id) = true :=
            beq_iff_eq.mpr (findActive_id hf)
          have hmem₁ : ({ product with stock := product.stock - it.quantity } : Product)
              ∈ decStock s.products it.product_id it.quantity := by
            have h3 := List.mem_map_of_mem
              (fun q => if q.id == it.product_id then ({ q with stock := q.stock - it.quantity } : Product) else q)
              (findActive_mem hf)
            simpa [decStock, hb2] using h3
          by_cases hocc2 : occursIn rest p.id = true
          · have hle := ih _ _ hnd₁ h _ hmem₁ (by
              show occursIn rest product.id = true
              rw [← hpprod]; exact hocc2)
            have hle' : qtySum rest product.id ≤ product.stock - it.quantity := hle
            rw [hpprod]
            omega
          · have h0 : qtySum rest p.id = 0 :=
              occursIn_false_qtySum (Bool.not_eq_true _ ▸ eq_false_of_ne_true hocc2)
            rw [h0, hpprod]
            omega
        · have hb' : (it.product_id == p.id) = false :=
            beq_eq_false_iff_ne.mpr (fun e => hid e.symm)
          rw [hb', if_neg (by simp), zero_add]
          have hocc2 : occursIn rest p.id = true := by
            rw [occursIn, List.any_cons, hb'] at hocc
            simpa [occursIn] using hocc
          have hbp : (p.id == it.product_id) = false := beq_eq_false_iff_ne.mpr hid
          have hmem₁ : p ∈ decStock s.products it.product_id it.quantity := by
            have h3 := List.mem_map_of_mem
              (fun q => if q.id == it.product_id then ({ q with stock := q.stock - it.quantity } : Product) else q)
              hp
            simpa [decStock, hbp] using h3
          exact ih _ _ hnd₁ h p hmem₁ hocc2

/-- Concrete evaluation: validating `odOk` against `dbW` succeeds with
`sOkFix`. -/
lemma processItems_odOk :
    processItems odOk.items { products := dbW.products, total_amount := 0, discount_amount := 0, order_items := [] } = .ok sOkFix := by
  norm_num [odOk, dbW, sOkFix, processItems, findActive, List.find?, productA, productB,
    productC, unit_price, decStock]

/-- Concrete evaluation: validating `odPlain` against `dbPlain` succeeds
with `sPlainFix`. -/
lemma processItems_odPlain :
    processItems odPlain.items { products := dbPlain.products, total_amount := 0, discount_amount := 0, order_items := [] } = .ok sPlainFix := by
  norm_num [odPlain, dbPlain, sPlainFix, processItems, findActive, List.find?,
    productC, unit_price, decStock]

/-! ### Inversion lemmas for the handlers -/

/-- If the validation loop raises, `create_order` returns the error and the
committed state is the input state. -/
lemma create_order_raised {od : OrderCreate} {u : Option Nat} {db : DB}
    {e : OrderErr} {dirty : List Product}
    (h : processItems od.items { products := db.products, total_amount := 0, discount_amount := 0, order_items := [] } = .raised e dirty) :
    create_order od u db = (db, .error e) := by
  rw [create_order, h]

/-- Success inversion for `create_order`. -/
lemma create_order_ok {od : OrderCreate} {u : Option Nat} {db db' : DB} {ord : Order}
    (h : create_order od u db = (db', .ok ord)) :
    ∃ s, processItems od.items { products := db.products, total_amount := 0, discount_amount := 0, order_items := [] } = .ok s ∧
      db' = commitOrder od u db s ∧ ord = newOrder od u db s := by
  rw [create_order] at h
  cases hp : processItems od.items { products := db.products, total_amount := 0, discount_amount := 0, order_items := [] } with
  | raised e dirty =>
    rw [hp] at h
    rw [Prod.mk.injEq] at h
    cases h.2
  | ok s =>
    rw [hp] at h
    rw [Prod.mk.injEq] at h
    obtain ⟨h1, h2⟩ := h
    rw [Except.ok.injEq] at h2
    exact ⟨s, rfl, h1.symm, h2.symm⟩

/-- Placement `create_order` never changes the multiset of product ids. -/
lemma create_order_fst_map_id (od : OrderCreate) (u : Option Nat) (db : DB) :
    ((create_order od u db).1.products).map Product.id = db.products.map Product.id := by
  cases hp : processItems od.items { products := db.products, total_amount := 0, discount_amount := 0, order_items := [] } with
  | raised e dirty => rw [create_order, hp]
  | ok s =>
    rw [create_order, hp]
    show s.products.map Product.id = _
    rw [processItems_ok_products _ _ _ hp, List.map_map]
    apply List.map_congr_left
    intro p _
    rfl

/-- Payment verification never touches the products table. -/
lemma verify_snd_products (hm : String → String → String) (secret : String)
    (configured : Bool) (pd : RazorpayPaymentVerify) (now : Nat) (db : DB) :
    (verify_razorpay_payment hm secret configured pd now db).2.products = db.products := by
  unfold verify_razorpay_payment
  split
  · rfl
  · split
    · rfl
    · split
      · rfl
      · dsimp only
        split
        · rfl
        · rfl

/-- Payment verification never touches the color-variant table either. -/
lemma verify_snd_variants (hm : String → String → String) (secret : String)
    (configured : Bool) (pd : RazorpayPaymentVerify) (now : Nat) (db : DB) :
    (verify_razorpay_payment hm secret configured pd now db).2.color_variants = db.color_variants := by
  unfold verify_razorpay_payment
  split
  · rfl
  · split
    · rfl
    · split
      · rfl
      · dsimp only
        split
        · rfl
        · rfl

/-- The admin stock update preserves the product ids. -/
lemma update_product_stock_map_id (pid : Nat) (ns : Int) (db : DB) :
    ((update_product_stock pid ns db).products).map Product.id = db.products.map Product.id := by
  rw [update_product_stock]
  show (db.products.map _).map Product.id = _
  rw [List.map_map]
  apply List.map_congr_left
  intro p _
  by_cases h : p.id = pid <;> simp [h]

/-! ### Invariant preservation -/

/-- A successful or failed placement keeps every stock non-negative. -/
lemma stocksNonneg_create_order {od : OrderCreate} {u : Option Nat} {db : DB}
    (hnd : idsNodup db) (hnn : stocksNonneg db) :
    stocksNonneg (create_order od u db).1 := by
  cases hp : processItems od.items { products := db.products, total_amount := 0, discount_amount := 0, order_items := [] } with
  | raised e dirty => rw [create_order, hp]; exact hnn
  | ok s =>
    rw [create_order, hp]
    intro p' hp'
    have hp'' : p' ∈ s.products := hp'
    rw [processItems_ok_products _ _ _ hp] at hp''
    obtain ⟨p, hpmem, rfl⟩ := List.mem_map.mp hp''
    show 0 ≤ p.stock - qtySum od.items p.id
    by_cases hocc : occursIn od.items p.id = true
    · have hle := processItems_ok_le od.items _ _ (by exact hnd) hp p hpmem hocc
      linarith [hle]
    · rw [occursIn_false_qtySum (eq_false_of_ne_true hocc), sub_zero]
      exact hnn p hpmem

/-- A validated admin stock update keeps every stock non-negative. -/
lemma stocksNonneg_update_product_stock {pid : Nat} {ns : Int} {db : DB}
    (hns : 0 ≤ ns) (hnn : stocksNonneg db) :
    stocksNonneg (update_product_stock pid ns db) := by
  intro p' hp'
  have hp'' : p' ∈ db.products.map (fun p => if p.id == pid then { p with stock := ns } else p) := hp'
  obtain ⟨p, hpmem, rfl⟩ := List.mem_map.mp hp''
  by_cases h : (p.id == pid) = true
  · rw [if_pos h]; exact hns
  · rw [if_neg h]; exact hnn p hpmem

/-- One core operation preserves both key invariants, given its
request-schema validation. -/
lemma applyOp_inv {op : Op} {db : DB} (h1 : idsNodup db) (h2 : stocksNonneg db)
    (hwf : opWF op = true) :
    idsNodup (applyOp op db) ∧ stocksNonneg (applyOp op db) := by
  cases op with
  | placeOrder od u =>
    constructor
    · show ((create_order od u db).1.products.map Product.id).Nodup
      rw [create_order_fst_map_id]
      exact h1
    · exact stocksNonneg_create_order h1 h2
  | updateProductStock pid ns =>
    constructor
    · show ((update_product_stock pid ns db).products.map Product.id).Nodup
      rw [update_product_stock_map_id]
      exact h1
    · exact stocksNonneg_update_product_stock (of_decide_eq_true hwf) h2
  | verifyPayment hm secret cfg pd now =>
    constructor
    · show (((verify_razorpay_payment hm secret cfg pd now db).2.products).map Product.id).Nodup
      rw [verify_snd_products]
      exact h1
    · show stocksNonneg (verify_razorpay_payment hm secret cfg pd now db).2
      intro p hp
      rw [verify_snd_products] at hp
      exact h2 p hp

/-- A whole sequence of validated core operations preserves both key
invariants. -/
lemma runOps_inv :
    ∀ (ops : List Op) (db : DB), idsNodup db → stocksNonneg db →
      (∀ op ∈ ops, opWF op = true) →
      idsNodup (runOps ops db) ∧ stocksNonneg (runOps ops db) := by
  intro ops
  induction ops with
  | nil => intro db h1 h2 _; exact ⟨h1, h2⟩
  | cons op rest ih =>
    intro db h1 h2 hwf
    rw [runOps]
    obtain ⟨g1, g2⟩ := applyOp_inv h1 h2 (hwf op (List.mem_cons_self _ _))
    exact ih _ g1 g2 (fun o ho => hwf o (List.mem_cons_of_mem _ ho))

/-! ### Claim theorems -/

/-- C4: the unit price used for an order line is `discounted_price` when it
is present and strictly positive, and `original_price` otherwise; a
discounted price of 0 or null always yields `original_price`, and for a
positive `original_price` the selected price is never zero. -/
theorem C4_unit_price_selection (p : Product) :
    (∀ d, p.discounted_price = some d → 0 < d → unit_price p = d) ∧
    ((p.discounted_price = none ∨ p.discounted_price = some 0) →
      unit_price p = p.original_price) ∧
    (∀ d, p.discounted_price = some d → ¬0 < d → unit_price p = p.original_price) ∧
    (0 < p.original_price → 0 < unit_price p) := by
  refine ⟨?_, ?_, ?_, ?_⟩
  · intro d hd h0
    rw [unit_price, hd]
    show (if 0 < d then d else p.original_price) = d
    rw [if_pos h0]
  · rintro (hd | hd)
    · rw [unit_price, hd]
    · rw [unit_price, hd]
      show (if (0:ℚ) < 0 then (0:ℚ) else p.original_price) = p.original_price
      rw [if_neg (lt_irrefl 0)]
  · intro d hd h0
    rw [unit_price, hd]
    show (if 0 < d then d else p.original_price) = p.original_price
    rw [if_neg h0]
  · intro h0
    rw [unit_price]
    cases hd : p.discounted_price with
    | none => exact h0
    | some d =>
      show 0 < if 0 < d then d else p.original_price
      by_cases hdp : 0 < d
      · rw [if_pos hdp]; exact hdp
      · rw [if_neg hdp]; exact h0

/-- Witness for C4 at concrete products: an applicable discount is selected,
and a missing or zero discount falls back to the original price. -/
theorem C4_witness :
    unit_price productA = 80 ∧ unit_price productB = 50 ∧
    unit_price { productB with discounted_price := some 0 } = 50 :=
  ⟨(C4_unit_price_selection productA).1 80 rfl (by norm_num),
   (C4_unit_price_selection productB).2.1 (Or.inl rfl),
   (C4_unit_price_selection _).2.1 (Or.inr rfl)⟩

/-- C1: if the validation loop raises on some line after earlier lines have
already decremented stock in the session (the dirty product list differs
from the committed one), `create_order` returns the error and the committed
state is untouched: every product keeps its pre-call stock and no Order,
OrderItem or Payment row is added — the session is closed without commit, so
the partial decrements never reach the database. -/
theorem C1_rollback (od : OrderCreate) (u : Option Nat) (db : DB)
    (e : OrderErr) (dirty : List Product)
    (h : processItems od.items { products := db.products, total_amount := 0, discount_amount := 0, order_items := [] } = .raised e dirty)
    (hdec : dirty ≠ db.products) :
    (create_order od u db).1.products = db.products ∧
    (create_order od u db).1.orders = db.orders ∧
    (create_order od u db).1.order_items = db.order_items ∧
    (create_order od u db).1.payments = db.payments ∧
    (create_order od u db).2 = .error e := by
  rw [create_order_raised h]
  exact ⟨rfl, rfl, rfl, rfl, rfl⟩

/-- Witness for C1: the two-line cart `odFail` reserves 2 units of
`productA` in-session, then fails on `productB` (1 in stock, 100 asked);
the call reports the error and commits nothing. -/
theorem C1_witness :
    (create_order odFail none dbW).1.products = dbW.products ∧
    (create_order odFail none dbW).1.orders = dbW.orders ∧
    (create_order odFail none dbW).1.order_items = dbW.order_items ∧
    (create_order odFail none dbW).1.payments = dbW.payments ∧
    (create_order odFail none dbW).2 = .error (.insufficientStock ("Kurta B") 1 100) :=
  C1_rollback odFail none dbW (.insufficientStock ("Kurta B") 1 100)
    [{ productA with stock := 3 }, productB, productC] (by decide) (by decide)

/-- C6: a payment-confirmation call never changes the stock of any product
or color variant, whatever its outcome — only placement and the admin stock
update touch stock, and a failed verification does not restock. -/
theorem C6_verify_frame (hm : String → String → String) (secret : String)
    (configured : Bool) (pd : RazorpayPaymentVerify) (now : Nat) (db : DB) :
    (verify_razorpay_payment hm secret configured pd now db).2.products = db.products ∧
    (verify_razorpay_payment hm secret configured pd now db).2.color_variants = db.color_variants :=
  ⟨verify_snd_products hm secret configured pd now db,
   verify_snd_variants hm secret configured pd now db⟩

/-- C2 counterexample: for the cart `odPlain` with subtotal 500 the claim
demands a persisted total of subtotal plus the tier fee, 500 + 50 = 550; the
code persists `final_amount = total_amount = 500` — `create_order` adds no
shipping fee at all (`final_amount = total_amount`, orders.py line 89). -/
theorem C2_counterexample :
    (create_order odPlain none dbPlain).2.toOption.map Order.total_amount = some 500 ∧
    (create_order odPlain none dbPlain).2.toOption.map Order.final_amount = some 500 ∧
    (500 : ℚ) + shippingCost_spec 500 = 550 ∧
    (500 : ℚ) ≠ 550 := by
  refine ⟨?_, ?_, ?_, by norm_num⟩
  · rw [create_order, processItems_odPlain]
    rfl
  · rw [create_order, processItems_odPlain]
    rfl
  · rw [shippingCost_spec, if_pos (by norm_num)]
    norm_num

/-- C2 amended: `create_order` applies no shipping fee: the persisted
`final_amount` equals `total_amount`, which is the subtotal — the sum of the
created line items' `total_price`s — and the pending Payment's amount equals
`final_amount`. -/
theorem C2_no_shipping_fee (od : OrderCreate) (u : Option Nat) (db db' : DB) (ord : Order)
    (h : create_order od u db = (db', .ok ord)) :
    ord.final_amount = ord.total_amount ∧
    (∃ new_items, db'.order_items = db.order_items ++ new_items ∧
       ord.total_amount = (new_items.map OrderItem.total_price).sum) ∧
    (∃ pay, db'.payments = db.payments ++ [pay] ∧ pay.amount = ord.final_amount) := by
  obtain ⟨s, hp, rfl, rfl⟩ := create_order_ok h
  refine ⟨rfl, ?_, ⟨newPayment od db s, rfl, rfl⟩⟩
  obtain ⟨new, h1, h2⟩ := processItems_ok_items _ _ _ hp
  refine ⟨new.map (mkOrderItem db.next_order_id), ?_, ?_⟩
  · show db.order_items ++ s.order_items.map (mkOrderItem db.next_order_id) = _
    rw [h1]
    simp
  · show s.total_amount = _
    rw [h2, zero_add, List.map_map]
    congr 1

/-- Witness for C2 (amended) at the concrete cart `odOk`: total and final
amount are both the subtotal 160, and the payment amount matches. -/
theorem C2_witness :
    ordOkResult.final_amount = ordOkResult.total_amount ∧
    (∃ new_items, ((create_order odOk none dbW).1).order_items = dbW.order_items ++ new_items ∧
       ordOkResult.total_amount = (new_items.map OrderItem.total_price).sum) ∧
    (∃ pay, ((create_order odOk none dbW).1).payments = dbW.payments ++ [pay] ∧
       pay.amount = ordOkResult.final_amount) :=
  C2_no_shipping_fee odOk none dbW (create_order odOk none dbW).1 ordOkResult
    (by rw [create_order, processItems_odOk]; rfl)

/-- C3: (i) a cart line resolved to an existing active product with stock
below the requested quantity makes the loop raise an insufficient-stock
error carrying the available quantity; (ii) a successful placement
decrements every product's stock by exactly the total quantity the cart
orders for it; (iii) consequently (ids being unique), two placements cannot
both succeed when their combined quantities for some mentioned product
exceed its starting stock. -/
theorem C3_reserve_check_decrement :
    (∀ (item : OrderItemCreate) (rest : List OrderItemCreate) (s : LoopState) (p : Product),
       findActive s.products item.product_id = some p →
       p.stock < item.quantity →
       processItems (item :: rest) s =
         .raised (.insufficientStock p.name p.stock item.quantity) s.products) ∧
    (∀ (od : OrderCreate) (u : Option Nat) (db db' : DB) (ord : Order),
       create_order od u db = (db', .ok ord) →
       db'.products = db.products.map (fun p => { p with stock := p.stock - qtySum od.items p.id })) ∧
    (∀ (od₁ od₂ : OrderCreate) (u₁ u₂ : Option Nat) (db db₁ db₂ : DB) (o₁ o₂ : Order),
       idsNodup db →
       create_order od₁ u₁ db = (db₁, .ok o₁) →
       create_order od₂ u₂ db₁ = (db₂, .ok o₂) →
       ∀ p ∈ db.products, (occursIn od₁.items p.id || occursIn od₂.items p.id) = true →
         qtySum od₁.items p.id + qtySum od₂.items p.id ≤ p.stock) := by
  refine ⟨?_, ?_, ?_⟩
  · intro item rest s p hf hlt
    simp only [processItems, hf, if_pos hlt]
  · intro od u db db' ord h
    obtain ⟨s, hp, rfl, rfl⟩ := create_order_ok h
    exact processItems_ok_products _ _ _ hp
  · intro od₁ od₂ u₁ u₂ db db₁ db₂ o₁ o₂ hnd h₁ h₂ p hp hocc
    obtain ⟨s₁, hp₁, hdb₁, _⟩ := create_order_ok h₁
    obtain ⟨s₂, hp₂, _, _⟩ := create_order_ok h₂
    have hmap₁ : s₁.products = db.products.map
        (fun q => { q with stock := q.stock - qtySum od₁.items q.id }) :=
      processItems_ok_products _ _ _ hp₁
    have hprod₁ : db₁.products = s₁.products := by rw [hdb₁]; rfl
    rw [Bool.or_eq_true] at hocc
    by_cases hocc₂ : occursIn od₂.items p.id = true
    · have hnd₁ : (db₁.products.map Product.id).Nodup := by
        have hh : db₁.products = (create_order od₁ u₁ db).1.products := by rw [h₁]
        rw [hh, create_order_fst_map_id]
        exact hnd
      have hmem₁ : ({ p with stock := p.stock - qtySum od₁.items p.id } : Product)
          ∈ db₁.products := by
        rw [hprod₁, hmap₁]
        exact List.mem_map_of_mem _ hp
      have hle₂ := processItems_ok_le od₂.items _ _ hnd₁ hp₂ _ hmem₁ (by exact hocc₂)
      have hle₂' : qtySum od₂.items p.id ≤ p.stock - qtySum od₁.items p.id := hle₂
      linarith
    · have h0 : qtySum od₂.items p.id = 0 :=
        occursIn_false_qtySum (eq_false_of_ne_true hocc₂)
      have hocc₁ : occursIn od₁.items p.id = true := hocc.resolve_right hocc₂
      have hle₁ := processItems_ok_le od₁.items _ _ (by exact hnd) hp₁ p hp hocc₁
      rw [h0, add_zero]
      exact hle₁

/-- Witness for C3 at a concrete line: one unit in stock, one hundred
requested — the loop raises the insufficient-stock error reporting the
available quantity 1. -/
theorem C3_witness :
    processItems [{ product_id := 2, quantity := 100 }]
        { products := dbW.products, total_amount := 0, discount_amount := 0, order_items := [] } =
      .raised (.insufficientStock ("Kurta B") 1 100) dbW.products :=
  C3_reserve_check_decrement.1 { product_id := 2, quantity := 100 } [] _ productB
    (by decide) (by decide)

/-- C8: (i) across any sequence of core operations whose requests pass
schema validation, starting from unique ids and non-negative stocks, every
product's stock stays non-negative; (ii) a successful placement only ever
references products that exist and are active — an inactive unit cannot be
added to a new order. -/
theorem C8_invariants :
    (∀ (db : DB) (ops : List Op), idsNodup db → stocksNonneg db →
       (∀ op ∈ ops, opWF op = true) → stocksNonneg (runOps ops db)) ∧
    (∀ (od : OrderCreate) (u : Option Nat) (db db' : DB) (ord : Order),
       create_order od u db = (db', .ok ord) →
       ∀ it ∈ od.items, ∃ p ∈ db.products, p.id = it.product_id ∧ p.is_active = true) := by
  constructor
  · intro db ops h1 h2 hwf
    exact (runOps_inv ops db h1 h2 hwf).2
  · intro od u db db' ord h it hit
    obtain ⟨s, hp, _, _⟩ := create_order_ok h
    exact processItems_ok_active _ _ _ hp it hit

/-- Witness for C8 on a concrete operation sequence: a placement followed by
a validated restock keeps all stocks non-negative. -/
theorem C8_witness :
    stocksNonneg (runOps [Op.placeOrder odOk none, Op.updateProductStock 2 7] dbW) :=
  C8_invariants.1 dbW [Op.placeOrder odOk none, Op.updateProductStock 2 7]
    (by unfold idsNodup; decide) (by unfold stocksNonneg; decide) (by decide)

/-- C7 counterexample: the admin status endpoint moves an order out of the
terminal `delivered` status to `pending` (which is not `refunded`): the code
performs no transition validation. -/
theorem C7_counterexample :
    (update_order_status 1 .pending 0 dbDelivered).1 = UpdOutcome.ok ∧
    (update_order_status 1 .pending 0 dbDelivered).2.orders.map Order.status = [OrderStatus.pending] ∧
    dbDelivered.orders.map Order.status = [OrderStatus.delivered] ∧
    OrderStatus.pending ≠ OrderStatus.refunded := by
  refine ⟨by decide, by decide, by decide, by decide⟩

/-- C7 amended: `update_order_status` enforces no state machine at all: for
every existing order it unconditionally succeeds and sets the requested
status, whatever the current one. -/
theorem C7_no_transition_validation (db : DB) (oid : Nat) (st : OrderStatus)
    (now : Nat) (order : Order)
    (h : db.orders.find? (fun o => o.id == oid) = some order) :
    (update_order_status oid st now db).1 = UpdOutcome.ok ∧
    ∀ o ∈ (update_order_status oid st now db).2.orders, o.id = order.id → o.status = st := by
  simp only [update_order_status, h]
  refine ⟨trivial, ?_⟩
  intro o ho hoid
  have ho' : o ∈ db.orders.map (fun o => if o.id == order.id then applyStatus o st now else o) := ho
  obtain ⟨q, hq, hEq⟩ := List.mem_map.mp ho'
  by_cases hb : (q.id == order.id) = true
  · rw [if_pos hb] at hEq
    rw [← hEq]
    show (applyStatus q st now).status = st
    simp only [applyStatus]
    split_ifs <;> rfl
  · rw [if_neg hb] at hEq
    rw [← hEq] at hoid
    exact absurd (beq_iff_eq.mpr hoid) hb

/-- Witness for C7 (amended): on the pending order of `dbPay`, a requested
`processing` status is applied unconditionally. -/
theorem C7_witness :
    (update_order_status 1 .processing 3 dbPay).1 = UpdOutcome.ok ∧
    ∀ o ∈ (update_order_status 1 .processing 3 dbPay).2.orders,
      o.id = orderPending.id → o.status = .processing :=
  C7_no_transition_validation dbPay 1 .processing 3 orderPending (by decide)

/-- C9: on an existing order, the gateway create-order call rejects with an
amount-mismatch error exactly when the requested amount differs from the
stored `final_amount` by more than the 0.01 epsilon, and proceeds to contact
the gateway exactly when it does not. -/
theorem C9_amount_guard (rd : RazorpayOrderCreate) (g : String) (db : DB) (order : Order)
    (h : db.orders.find? (fun o => o.id == rd.order_id) = some order) :
    ((create_razorpay_order true rd g db).1 = RzOutcome.amountMismatch ↔
      |order.final_amount - rd.amount| > 1/100) ∧
    ((create_razorpay_order true rd g db).1 = RzOutcome.contacted ↔
      |order.final_amount - rd.amount| ≤ 1/100) := by
  simp only [create_razorpay_order, Bool.not_true, Bool.false_eq_true, if_false, h]
  by_cases hgt : |order.final_amount - rd.amount| > 1/100
  · rw [if_pos hgt]
    constructor
    · exact iff_of_true rfl hgt
    · exact iff_of_false (by simp) (not_le.mpr hgt)
  · rw [if_neg hgt]
    constructor
    · exact iff_of_false (by simp) hgt
    · exact iff_of_true rfl (not_lt.mp hgt)

/-- Witness for C9 on `dbPay` (stored total 100): a requested amount of 99
differs by 1 > 0.01, and the call reports the mismatch. -/
theorem C9_witness :
    ((create_razorpay_order true { order_id := 1, amount := 99 } ("gw1") dbPay).1 = RzOutcome.amountMismatch ↔
      |orderPending.final_amount - (99 : ℚ)| > 1/100) ∧
    ((create_razorpay_order true { order_id := 1, amount := 99 } ("gw1") dbPay).1 = RzOutcome.contacted ↔
      |orderPending.final_amount - (99 : ℚ)| ≤ 1/100) :=
  C9_amount_guard { order_id := 1, amount := 99 } ("gw1") dbPay orderPending (by decide)

/-- C5 counterexample: on a successful confirmation the payment row's
gateway order id is NOT recorded — it keeps its previous value (here
`none`), not `some pd.razorpay_order_id`: the handler records only the
gateway payment id and the signature (orders.py lines 271-272), so the
claim's "records the gateway ids" fails for the gateway order id. -/
theorem C5_counterexample :
    (verify_razorpay_payment hmConcat ("k") true pdGood 7 dbPay).1 = VerifyOutcome.ok ∧
    (verify_razorpay_payment hmConcat ("k") true pdGood 7 dbPay).2.payments.map Payment.razorpay_order_id = [none] ∧
    pdGood.razorpay_order_id = "ro1" := by
  refine ⟨by decide, by decide, rfl⟩

/-- C5 amended: on an existing order and payment, confirmation succeeds if
and only if the supplied signature equals the digest of
`gatewayOrderId|gatewayPaymentId` under the shared secret (for any digest
function, in the code HMAC-SHA256); a matching row exists, and on match the
payment row is completed with the gateway payment id, the signature and
`completed_at` recorded (the stored gateway order id is untouched) and the
order is confirmed with `confirmed_at`; on mismatch the call returns
signature-invalid, the payment row is failed with the failure reason
recorded, and the orders table — in particular `Order.status` — is
unchanged. -/
theorem C5_signature_check (hm : String → String → String) (secret : String)
    (pd : RazorpayPaymentVerify) (now : Nat) (db : DB) (order : Order) (pay : Payment)
    (h1 : db.orders.find? (fun o => o.id == pd.order_id) = some order)
    (h2 : db.payments.find? (fun p => p.order_id == order.id) = some pay) :
    ((verify_razorpay_payment hm secret true pd now db).1 = VerifyOutcome.ok ↔
      hm secret (pd.razorpay_order_id ++ "|" ++ pd.razorpay_payment_id) = pd.razorpay_signature) ∧
    (∃ q ∈ (verify_razorpay_payment hm secret true pd now db).2.payments, q.order_id = order.id) ∧
    (hm secret (pd.razorpay_order_id ++ "|" ++ pd.razorpay_payment_id) = pd.razorpay_signature →
      (∀ q ∈ (verify_razorpay_payment hm secret true pd now db).2.payments, q.order_id = order.id →
         q.payment_status = PaymentStatus.completed ∧
         q.razorpay_payment_id = some pd.razorpay_payment_id ∧
         q.razorpay_signature = some pd.razorpay_signature ∧
         q.completed_at = some now) ∧
      (∀ o ∈ (verify_razorpay_payment hm secret true pd now db).2.orders, o.id = order.id →
         o.status = OrderStatus.confirmed ∧ o.confirmed_at = some now)) ∧
    (hm secret (pd.razorpay_order_id ++ "|" ++ pd.razorpay_payment_id) ≠ pd.razorpay_signature →
      (verify_razorpay_payment hm secret true pd now db).1 = VerifyOutcome.signatureInvalid ∧
      (verify_razorpay_payment hm secret true pd now db).2.orders = db.orders ∧
      (∀ q ∈ (verify_razorpay_payment hm secret true pd now db).2.payments, q.order_id = order.id →
         q.payment_status = PaymentStatus.failed ∧
         q.failure_reason = some ("Invalid payment signature"))) := by
  have hpaymem : pay ∈ db.payments := List.mem_of_find?_eq_some h2
  have hpayid : (pay.order_id == order.id) = true := by
    simpa using List.find?_some h2
  simp only [verify_razorpay_payment, Bool.not_true, Bool.false_eq_true, if_false, h1, h2]
  by_cases hsig : hm secret (pd.razorpay_order_id ++ "|" ++ pd.razorpay_payment_id) = pd.razorpay_signature
  · rw [if_neg (not_not_intro hsig)]
    refine ⟨iff_of_true rfl hsig, ?_, ?_, fun hne => absurd hsig hne⟩
    · refine ⟨_, List.mem_map_of_mem _ hpaymem, ?_⟩
      show (if (pay.order_id == order.id) = true then
          { pay with razorpay_payment_id := some pd.razorpay_payment_id
                     razorpay_signature := some pd.razorpay_signature
                     payment_status := PaymentStatus.completed
                     completed_at := some now } else pay).order_id = order.id
      rw [if_pos hpayid]
      exact eq_of_beq hpayid
    · intro _
      constructor
      · intro q hq hqid
        obtain ⟨q₀, hq₀, hEq⟩ := List.mem_map.mp hq
        by_cases hb : (q₀.order_id == order.id) = true
        · rw [if_pos hb] at hEq
          rw [← hEq]
          exact ⟨rfl, rfl, rfl, rfl⟩
        · rw [if_neg hb] at hEq
          rw [← hEq] at hqid
          exact absurd (beq_iff_eq.mpr hqid) hb
      · intro o ho hoid
        obtain ⟨o₀, ho₀, hEq⟩ := List.mem_map.mp ho
        by_cases hb : (o₀.id == order.id) = true
        · rw [if_pos hb] at hEq
          rw [← hEq]
          exact ⟨rfl, rfl⟩
        · rw [if_neg hb] at hEq
          rw [← hEq] at hoid
          exact absurd (beq_iff_eq.mpr hoid) hb
  · rw [if_pos hsig]
    refine ⟨iff_of_false (by simp) hsig, ?_, fun hEqsig => absurd hEqsig hsig, ?_⟩
    · refine ⟨_, List.mem_map_of_mem _ hpaymem, ?_⟩
      show (if (pay.order_id == order.id) = true then
          { pay with payment_status := PaymentStatus.failed
                     failure_reason := some ("Invalid payment signature") } else pay).order_id = order.id
      rw [if_pos hpayid]
      exact eq_of_beq hpayid
    · intro _
      refine ⟨rfl, rfl, ?_⟩
      intro q hq hqid
      obtain ⟨q₀, hq₀, hEq⟩ := List.mem_map.mp hq
      by_cases hb : (q₀.order_id == order.id) = true
      · rw [if_pos hb] at hEq
        rw [← hEq]
        exact ⟨rfl, rfl⟩
      · rw [if_neg hb] at hEq
        rw [← hEq] at hqid
        exact absurd (beq_iff_eq.mpr hqid) hb

/-- Witness for C5 (amended): on `dbPay` with the matching request
`pdGood`, success is equivalent to the signature matching the digest. -/
theorem C5_witness :
    (verify_razorpay_payment hmConcat ("k") true pdGood 7 dbPay).1 = VerifyOutcome.ok ↔
      hmConcat ("k") (pdGood.razorpay_order_id ++ "|" ++ pdGood.razorpay_payment_id) = pdGood.razorpay_signature :=
  (C5_signature_check hmConcat ("k") pdGood 7 dbPay orderPending paymentPending
    (by decide) (by decide)).1

/-- C10: the WhatsApp entry point builds an `OrderCreate` whose payment
method is whatsapp and whose lines and customer fields are the caller's, and
returns exactly `create_order` on it: same state effects, same failures. -/
theorem C10_whatsapp_delegates (wd : WhatsAppOrderCreate) (u : Option Nat) (db : DB) :
    create_whatsapp_order wd u db = create_order (whatsAppToOrderCreate wd) u db ∧
    (whatsAppToOrderCreate wd).payment_method = PaymentMethod.whatsapp ∧
    (whatsAppToOrderCreate wd).items = wd.items ∧
    (whatsAppToOrderCreate wd).customer_name = wd.customer_name ∧
    (whatsAppToOrderCreate wd).customer_phone = wd.customer_phone ∧
    (whatsAppToOrderCreate wd).shipping_address = wd.shipping_address :=
  ⟨rfl, rfl, rfl, rfl, rfl, rfl⟩

end ECom
